import Mathlib

/-!
Verification development for the restricted code-execution sandbox in
custom_components/powerllm/tools/python_code.py.

The Python module is shallowly embedded: its pure guard hooks become Lean
functions, and the stateful execution pipeline (`execute` and the tool entry
point `python_code_execute`) becomes explicit state passing over a small
instruction language.  A sandboxed program is modelled as a straight-line
list of the operations that the guard hooks intercept; the external
RestrictedPython compiler is modelled by letting a source program carry its
compile diagnostics, since its internals are outside this repository.
-/

/-- The single-quote character, used when rendering Python `repr` texts. -/
def squote : String := "\x27"

/-- `s.startswith(pre)`: structural version of `String.startsWith` (which is
defined by well-founded recursion and would not evaluate inside proofs). -/
def strStartsWith (s pre : String) : Bool := pre.toList.isPrefixOf s.toList

/-- `name.split(".")[0]`: the segment before the first dot. -/
def headBeforeDot (name : String) : String :=
  String.mk (name.toList.takeWhile (fun c => c != '.'))

/-- Python runtime values, covering the types the sandbox guards care about:
`isinstance(target, (list, Number, str))` in `guarded_inplacevar` and the
JSON-shaped dictionaries used for `output`, `data` and tool results. -/
inductive Val where
  | pynone
  | pybool (b : Bool)
  | pyint (n : Int)
  | pyfloat (q : Rat)
  | pystr (s : String)
  | pylist (xs : List Val)
  | pytuple (xs : List Val)
  | pydict (entries : List (String × Val))
  | pyobj (className : String)
deriving Repr

/-- `type(v).__name__` for the modelled values. -/
def Val.typeName : Val → String
  | .pynone => "NoneType"
  | .pybool _ => "bool"
  | .pyint _ => "int"
  | .pyfloat _ => "float"
  | .pystr _ => "str"
  | .pylist _ => "list"
  | .pytuple _ => "tuple"
  | .pydict _ => "dict"
  | .pyobj c => c

/-- Python `repr(type(v))`, as it appears in guard error messages. -/
def Val.classRepr (v : Val) : String :=
  "<class " ++ squote ++ v.typeName ++ squote ++ ">"

/-- Exceptions that can flow through the sandbox.  `scriptError` models the
module's own `ScriptError(HomeAssistantError)` with its argument tuple;
`serviceValidationError` and `homeAssistantError` model the Home Assistant
error classes used by `execute`'s except clauses; `exc` models any other
Python exception, tagged with its class name. -/
inductive PyErr where
  | scriptError (args : List String)
  | serviceValidationError (msg : String)
  | homeAssistantError (msg : String)
  | exc (kind : String) (msg : String)
deriving DecidableEq, Repr

/-- `type(e).__name__`. -/
def PyErr.kindName : PyErr → String
  | .scriptError _ => "ScriptError"
  | .serviceValidationError _ => "ServiceValidationError"
  | .homeAssistantError _ => "HomeAssistantError"
  | .exc kind _ => kind

/-- `str(e)`: a single argument prints bare, several arguments print as the
argument tuple (Python `Exception.__str__`). -/
def PyErr.text : PyErr → String
  | .scriptError [] => ""
  | .scriptError [a] => a
  | .scriptError args =>
      "(" ++ String.intercalate ", " (args.map (fun a => squote ++ a ++ squote)) ++ ")"
  | .serviceValidationError m => m
  | .homeAssistantError m => m
  | .exc _ m => m

/-- Whether the exception is a `HomeAssistantError` (all three repository
error classes are; `exc` covers unrelated Python exceptions). -/
def PyErr.isHomeAssistantError : PyErr → Bool
  | .scriptError _ => true
  | .serviceValidationError _ => true
  | .homeAssistantError _ => true
  | .exc _ _ => false

/-- Identity of the object an attribute is read on.  `protected_getattr`
compares its argument with `is` against the host handle and its members, so
the embedding needs only these distinguished identities plus a catch-all for
unrelated objects. -/
inductive Owner where
  | hass
  | hassBus
  | hassStates
  | hassServices
  | dtUtil
  | datetimeModule
  | timeWrapperInstance
  | other (className : String)
deriving DecidableEq, Repr

/-- `obj.__class__.__name__` for each owner identity. -/
def Owner.className : Owner → String
  | .hass => "HomeAssistant"
  | .hassBus => "EventBus"
  | .hassStates => "StateMachine"
  | .hassServices => "ServiceRegistry"
  | .dtUtil => "module"
  | .datetimeModule => "module"
  | .timeWrapperInstance => "TimeWrapper"
  | .other c => c

/- Allow-list tables, verbatim from the source module. -/

def ALLOWED_HASS : List String := ["bus", "services", "states"]

def ALLOWED_EVENTBUS : List String := ["fire"]

def ALLOWED_STATEMACHINE : List String :=
  ["entity_ids", "all", "get", "is_state", "is_state_attr", "remove", "set"]

def ALLOWED_SERVICEREGISTRY : List String := ["services", "has_service", "call"]

def ALLOWED_TIME : List String :=
  ["sleep", "strftime", "strptime", "gmtime", "localtime", "ctime", "time", "mktime"]

def ALLOWED_DATETIME : List String := ["date", "time", "datetime", "timedelta", "tzinfo"]

def ALLOWED_DT_UTIL : List String :=
  ["utcnow", "now", "as_utc", "as_timestamp", "as_local", "utc_from_timestamp",
   "start_of_local_day", "parse_datetime", "parse_date", "get_age"]

def ALLOWED_IMPORT : List String :=
  ["math", "random", "itertools", "functools", "collections", "json", "csv",
   "re", "string", "operator", "enum", "types"]

/-- Modelled from the spec: RestrictedPython's `safer_getattr`, the generic
safe attribute getter the repository imports (its code is outside this
repository).  The spec says approval "delegates to a safe generic getter that
still blocks dunder/private access", so names starting with an underscore
fail with an `AttributeError` and anything else is allowed. -/
def safer_getattr (_obj : Owner) (name : String) : Except PyErr Unit :=
  if strStartsWith name "_" then
    .error (.exc "AttributeError"
      ("invalid attribute name because it starts with an underscore: " ++ name))
  else .ok ()

/-- `protected_getattr` from `execute`'s closure: the restricted attribute
getter.  Returns `ok` when the read is permitted and the denying exception
otherwise. -/
def protected_getattr (obj : Owner) (name : String) : Except PyErr Unit :=
  if strStartsWith name "async_" then
    .error (.scriptError ["Not allowed to access async methods"])
  else if (obj = .hass ∧ name ∉ ALLOWED_HASS)
      ∨ (obj = .hassBus ∧ name ∉ ALLOWED_EVENTBUS)
      ∨ (obj = .hassStates ∧ name ∉ ALLOWED_STATEMACHINE)
      ∨ (obj = .hassServices ∧ name ∉ ALLOWED_SERVICEREGISTRY)
      ∨ (obj = .dtUtil ∧ name ∉ ALLOWED_DT_UTIL)
      ∨ (obj = .datetimeModule ∧ name ∉ ALLOWED_DATETIME)
      ∨ (obj = .timeWrapperInstance ∧ name ∉ ALLOWED_TIME) then
    .error (.scriptError ["Not allowed to access " ++ obj.className ++ "." ++ name])
  else
    safer_getattr obj name

/-- The raw Python builtin `getattr`, which `extra_builtins` binds into the
sandbox builtins unguarded (`"getattr": getattr`).  A call `getattr(obj,
name)` resolves through `__builtins__` and is not rewritten through the
`_getattr_` hook, so no allow-list is consulted; it fails only when the
attribute does not exist.  The reads modelled here are of attributes the
owners actually have, so the call succeeds. -/
def builtin_getattr (_obj : Owner) (_name : String) : Except PyErr Unit := .ok ()

/-- The keys of `extra_builtins`, in the source's order; `getattr` and
`hasattr` are bound to the raw Python builtins, with no guard. -/
def extra_builtins_names : List String :=
  ["__import__", "datetime", "sorted", "time", "dt_util", "min", "max", "sum",
   "any", "all", "enumerate", "type", "map", "filter", "reversed",
   "getattr", "hasattr"]

/-- What `protected_import` evaluates to on success: either a real module
from the allow-list or one of the special-cased synthetic modules. -/
inductive ImportResult where
  | stdModule (name : String)
  | datetimeModule
  | timeWrapper
  | dtUtilModule
  | protectedLogger
deriving DecidableEq, Repr

/-- `protected_import` from `execute`'s closure: the restricted import
resolver. -/
def protected_import (name : String) : Except PyErr ImportResult :=
  if headBeforeDot name ∈ ALLOWED_IMPORT then
    .ok (.stdModule name)
  else if name = "datetime" then
    .ok .datetimeModule
  else if name = "time" then
    .ok .timeWrapper
  else if name = "dt_util" then
    .ok .dtUtilModule
  else if name = "logging" then
    .ok .protectedLogger
  else
    .error (.exc "ImportError" ("Module " ++ name ++ " not found"))

/-- Numeric values, as grouped by Python's `numbers.Number` tower: `bool`
coerces to `int`, and mixed `int`/`float` arithmetic widens to `float`. -/
inductive NumV where
  | ival (n : Int)
  | fval (q : Rat)
deriving DecidableEq, Repr

/-- View a value as a number (`bool` counts: `isinstance(True, Number)`). -/
def Val.toNum : Val → Option NumV
  | .pybool b => some (.ival (if b then 1 else 0))
  | .pyint n => some (.ival n)
  | .pyfloat q => some (.fval q)
  | _ => none

def NumV.toVal : NumV → Val
  | .ival n => .pyint n
  | .fval q => .pyfloat q

/-- Apply an integer operation or, when either side is a float, the float
operation (Python numeric widening). -/
def numBin (fi : Int → Int → Int) (ff : Rat → Rat → Rat) : NumV → NumV → NumV
  | .ival a, .ival b => .ival (fi a b)
  | .ival a, .fval b => .fval (ff (a : Rat) b)
  | .fval a, .ival b => .fval (ff a (b : Rat))
  | .fval a, .fval b => .fval (ff a b)

def NumV.isZero : NumV → Bool
  | .ival n => n = 0
  | .fval q => q = 0

def NumV.toRat : NumV → Rat
  | .ival n => (n : Rat)
  | .fval q => q

/-- The `TypeError` Python raises for a binary operator on unsupported
operand types. -/
def typeErrorFor (sym : String) (a b : Val) : PyErr :=
  .exc "TypeError"
    ("unsupported operand type(s) for " ++ sym ++ ": " ++ squote ++ a.typeName
      ++ squote ++ " and " ++ squote ++ b.typeName ++ squote)

/-- View a value as a Python index (int or bool), for sequence repetition
and shifts. -/
def Val.asIndex : Val → Option Int
  | .pybool b => some (if b then 1 else 0)
  | .pyint n => some n
  | _ => none

/-- Sequence repetition `xs * n` (non-positive count gives the empty
sequence, as in Python). -/
def seqRepeat {α : Type} (xs : List α) (n : Int) : List α :=
  (List.replicate n.toNat xs).flatten

/- The functions below model the entries of Python's `operator` module that
`IOPERATOR_TO_OPERATOR` refers to, restricted to the modelled value types
(numbers, strings, lists, tuples); anything else raises the corresponding
Python exception. -/

def operator_add (a b : Val) : Except PyErr Val :=
  match a.toNum, b.toNum with
  | some x, some y => .ok (numBin (· + ·) (· + ·) x y).toVal
  | _, _ =>
    match a, b with
    | .pystr s, .pystr t => .ok (.pystr (s ++ t))
    | .pylist xs, .pylist ys => .ok (.pylist (xs ++ ys))
    | .pytuple xs, .pytuple ys => .ok (.pytuple (xs ++ ys))
    | _, _ => .error (typeErrorFor "+" a b)

def operator_sub (a b : Val) : Except PyErr Val :=
  match a.toNum, b.toNum with
  | some x, some y => .ok (numBin (· - ·) (· - ·) x y).toVal
  | _, _ => .error (typeErrorFor "-" a b)

def operator_mul (a b : Val) : Except PyErr Val :=
  match a.toNum, b.toNum with
  | some x, some y => .ok (numBin (· * ·) (· * ·) x y).toVal
  | _, _ =>
    match a.asIndex, b.asIndex, a, b with
    | some n, _, _, .pystr s => .ok (.pystr (String.join (List.replicate n.toNat s)))
    | _, some n, .pystr s, _ => .ok (.pystr (String.join (List.replicate n.toNat s)))
    | some n, _, _, .pylist xs => .ok (.pylist (seqRepeat xs n))
    | _, some n, .pylist xs, _ => .ok (.pylist (seqRepeat xs n))
    | some n, _, _, .pytuple xs => .ok (.pytuple (seqRepeat xs n))
    | _, some n, .pytuple xs, _ => .ok (.pytuple (seqRepeat xs n))
    | _, _, _, _ => .error (typeErrorFor "*" a b)

def operator_truediv (a b : Val) : Except PyErr Val :=
  match a.toNum, b.toNum with
  | some x, some y =>
    if y.isZero then .error (.exc "ZeroDivisionError" "division by zero")
    else .ok (.pyfloat (x.toRat / y.toRat))
  | _, _ => .error (typeErrorFor "/" a b)

def operator_floordiv (a b : Val) : Except PyErr Val :=
  match a.toNum, b.toNum with
  | some x, some y =>
    if y.isZero then .error (.exc "ZeroDivisionError" "integer division or modulo by zero")
    else .ok (numBin Int.fdiv (fun p q => ((p / q).floor : Rat)) x y).toVal
  | _, _ => .error (typeErrorFor "//" a b)

def operator_mod (a b : Val) : Except PyErr Val :=
  match a.toNum, b.toNum with
  | some x, some y =>
    if y.isZero then .error (.exc "ZeroDivisionError" "integer division or modulo by zero")
    else .ok (numBin Int.fmod (fun p q => p - q * ((p / q).floor : Rat)) x y).toVal
  | _, _ => .error (typeErrorFor "%" a b)

/-- `operator.pow`; negative exponents produce floats.  Non-integer float
exponents are real-number powers, outside this rational-valued model, and
are mapped to the unsupported-operands error. -/
def operator_pow (a b : Val) : Except PyErr Val :=
  match a.toNum, b.toNum with
  | some x, some y =>
    match x, y with
    | .ival p, .ival q =>
      if 0 ≤ q then .ok (.pyint (p ^ q.toNat))
      else if p = 0 then .error (.exc "ZeroDivisionError" "0.0 cannot be raised to a negative power")
      else .ok (.pyfloat ((p : Rat) ^ q))
    | _, .ival q =>
      if x.toRat = 0 ∧ q < 0 then .error (.exc "ZeroDivisionError" "0.0 cannot be raised to a negative power")
      else .ok (.pyfloat (x.toRat ^ q))
    | _, _ => .error (typeErrorFor "** or pow()" a b)
  | _, _ => .error (typeErrorFor "** or pow()" a b)

def operator_lshift (a b : Val) : Except PyErr Val :=
  match a.asIndex, b.asIndex with
  | some n, some k =>
    if k < 0 then .error (.exc "ValueError" "negative shift count")
    else .ok (.pyint (n * 2 ^ k.toNat))
  | _, _ => .error (typeErrorFor "<<" a b)

def operator_rshift (a b : Val) : Except PyErr Val :=
  match a.asIndex, b.asIndex with
  | some n, some k =>
    if k < 0 then .error (.exc "ValueError" "negative shift count")
    else .ok (.pyint (Int.fdiv n (2 ^ k.toNat)))
  | _, _ => .error (typeErrorFor ">>" a b)

def operator_and (a b : Val) : Except PyErr Val :=
  match a.asIndex, b.asIndex with
  | some n, some k => .ok (.pyint (Int.land n k))
  | _, _ => .error (typeErrorFor "&" a b)

def operator_xor (a b : Val) : Except PyErr Val :=
  match a.asIndex, b.asIndex with
  | some n, some k => .ok (.pyint (Int.xor n k))
  | _, _ => .error (typeErrorFor "^" a b)

def operator_or (a b : Val) : Except PyErr Val :=
  match a.asIndex, b.asIndex with
  | some n, some k => .ok (.pyint (Int.lor n k))
  | _, _ => .error (typeErrorFor "|" a b)

/-- `operator.matmul`: none of the modelled value types support `@`. -/
def operator_matmul (a b : Val) : Except PyErr Val :=
  .error (typeErrorFor "@" a b)

/-- `IOPERATOR_TO_OPERATOR`, the fixed symbol-to-operation table, in the
source's order. -/
def IOPERATOR_TO_OPERATOR : List (String × (Val → Val → Except PyErr Val)) :=
  [("%=", operator_mod),
   ("&=", operator_and),
   ("**=", operator_pow),
   ("*=", operator_mul),
   ("+=", operator_add),
   ("-=", operator_sub),
   ("//=", operator_floordiv),
   ("/=", operator_truediv),
   ("<<=", operator_lshift),
   (">>=", operator_rshift),
   ("@=", operator_matmul),
   ("^=", operator_xor),
   ("|=", operator_or)]

/-- `dict.get` on the operator table. -/
def opTableGet : List (String × (Val → Val → Except PyErr Val)) → String →
    Option (Val → Val → Except PyErr Val)
  | [], _ => none
  | (k, f) :: rest, key => if k = key then some f else opTableGet rest key

/-- `isinstance(target, (list, Number, str))` on the modelled values
(`bool`, `int` and `float` are `Number`s). -/
def isinstance_list_Number_str : Val → Bool
  | .pylist _ => true
  | .pybool _ => true
  | .pyint _ => true
  | .pyfloat _ => true
  | .pystr _ => true
  | _ => false

/-- `guarded_inplacevar`, the augmented-assignment hook. -/
def guarded_inplacevar (op : String) (target operand : Val) : Except PyErr Val :=
  if ¬ isinstance_list_Number_str target then
    .error (.scriptError
      ["The " ++ squote ++ op ++ squote ++ " operation is not allowed on a "
        ++ target.classRepr])
  else
    match opTableGet IOPERATOR_TO_OPERATOR op with
    | none => .error (.scriptError
        ["The " ++ squote ++ op ++ squote ++ " operation is not allowed"])
    | some op_fun => op_fun target operand

/-- Following the spec's words only (for comparison with the source's
check): whether a value's runtime type is "one of sequence, numeric, text".
Python's sequence types include lists and tuples; `str` is its text type;
`bool`, `int` and `float` are numeric. -/
def spec_target_type_ok : Val → Bool
  | .pylist _ => true
  | .pytuple _ => true
  | .pystr _ => true
  | .pybool _ => true
  | .pyint _ => true
  | .pyfloat _ => true
  | _ => false

/-! ## The execution pipeline -/

/-- One captured log record: the fields `python_code_execute` extracts from
`logging.LogRecord` (`record.levelno` and `record.getMessage()`). -/
structure LogRec where
  level : Nat
  msg : String
deriving DecidableEq, Repr

/-- A Python dict with string keys, in insertion order. -/
abbrev PyDict := List (String × Val)

/-- `d[k] = v` on an insertion-ordered dict: update in place when the key
exists, append otherwise. -/
def dictSet (d : PyDict) (k : String) (v : Val) : PyDict :=
  if d.any (fun p => p.1 == k) then
    d.map (fun p => if p.1 == k then (k, v) else p)
  else d ++ [(k, v)]

/-- `d.get(key)` with string keys. -/
def dlookup : PyDict → String → Option Val
  | [], _ => none
  | (k, v) :: rest, key => if k = key then some v else dlookup rest key

/-- The `data` heap: the caller's dict objects, addressed by index, so that
binding "the same mapping object" versus "a fresh mapping" is observable. -/
def heapGet (h : List PyDict) (a : Nat) : PyDict := (h.get? a).getD []

def heapSet (h : List PyDict) (a : Nat) (d : PyDict) : List PyDict := h.set a d

/-- The operations of a sandboxed program.  RestrictedPython's transformed
tree routes every attribute-access *expression* through `_getattr_`
(`getAttr`), every import through `__import__` and every augmented
assignment through `_inplacevar_` — but the builtins bound by
`extra_builtins` include the raw Python `getattr`, and a plain call
`getattr(obj, name)` is not attribute-access syntax, so it reaches the
unguarded builtin (`callGetattr`).  A program's run is modelled as the
straight-line sequence of these events. -/
inductive Instr where
  | setOutput (k : String) (v : Val)
  | setData (k : String) (v : Val)
  | getAttr (obj : Owner) (name : String)
  | callGetattr (obj : Owner) (name : String)
  | importMod (name : String)
  | augAssign (op : String) (target operand : Val)
  | printText (s : String)
  | logMsg (level : Nat) (msg : String)
  | raiseExc (kind : String) (msg : String)
deriving Repr

/-- A source program, shallowly: the external `compile_restricted_exec` is
outside this repository, so a source carries the diagnostics and transformed
body that compiling it produces. -/
structure SourceProgram where
  compileErrors : List String
  compileWarnings : List String
  body : List Instr
deriving Repr

/-- Result shape of RestrictedPython's `compile_restricted_exec`. -/
structure CompileResult where
  errors : List String
  warnings : List String
  code : List Instr
deriving Repr

/-- Modelled from the spec: the external restricted compiler (4.1); in this
embedding a source program already carries its compile outcome. -/
def compile_restricted_exec (s : SourceProgram) : CompileResult :=
  ⟨s.compileErrors, s.compileWarnings, s.body⟩

/-- Mutable state during `exec` of the compiled program: the `output` dict,
the `printed` fragment buffer, the records so far in the attached handler's
list, the dict heap and the address `data` is bound to. -/
structure RunSt where
  output : PyDict
  printed : List String
  logs : List LogRec
  heap : List PyDict
  dataAddr : Nat
deriving Repr

/-- Effect of one intercepted operation. -/
def stepInstr (s : RunSt) : Instr → Except PyErr RunSt
  | .setOutput k v => .ok { s with output := dictSet s.output k v }
  | .setData k v =>
      .ok { s with heap := heapSet s.heap s.dataAddr
                     (dictSet (heapGet s.heap s.dataAddr) k v) }
  | .getAttr obj name => (protected_getattr obj name).map (fun _ => s)
  | .callGetattr obj name => (builtin_getattr obj name).map (fun _ => s)
  | .importMod name => (protected_import name).map (fun _ => s)
  | .augAssign op t x => (guarded_inplacevar op t x).map (fun _ => s)
  | .printText txt => .ok { s with printed := s.printed ++ [txt] }
  | .logMsg lvl m => .ok { s with logs := s.logs ++ [⟨lvl, m⟩] }
  | .raiseExc kind m => .error (.exc kind m)

/-- Run the program's operations in order.  An exception stops execution but
the side effects made so far (prints, log records, `data` mutations) remain,
as they do for the real mutable objects. -/
def runInstrs (s : RunSt) : List Instr → RunSt × Option PyErr
  | [] => (s, none)
  | i :: rest =>
    match stepInstr s i with
    | .error e => (s, some e)
    | .ok s2 => runInstrs s2 rest

/-- `data or {}` in `restricted_globals`: `None` or an empty dict is
replaced by a fresh empty dict; a non-empty dict is bound as the same
object. -/
def bindData (heap : List PyDict) (data : Option Nat) : List PyDict × Nat :=
  match data with
  | none => (heap ++ [[]], heap.length)
  | some a =>
    if (heapGet heap a).isEmpty then (heap ++ [[]], heap.length)
    else (heap, a)

/-- The warning text RestrictedPython emits for scripts that print, filtered
out by `execute`. -/
def printsWarningText : String :=
  "Prints, but never reads " ++ squote ++ "printed" ++ squote ++ " variable."

/-- Whether `pat` occurs as a contiguous sublist of `w`. -/
def listIsInfix (pat : List Char) : List Char → Bool
  | [] => pat.isEmpty
  | c :: rest => pat.isPrefixOf (c :: rest) || listIsInfix pat rest

/-- Substring test (Python's `in` on strings). -/
def containsSub (w pat : String) : Bool := listIsInfix pat.toList w.toList

/-- The handler-visible log list after `execute`'s compile-warning logging:
a non-empty filtered warning list is logged at WARNING (30) to the script
logger before the program runs. -/
def execLogs (source : SourceProgram) (logs0 : List LogRec) : List LogRec :=
  let compiled_warnings :=
    (compile_restricted_exec source).warnings.filter
      (fun w => ¬ containsSub w printsWarningText)
  if compiled_warnings = [] then logs0
  else logs0 ++ [⟨30, "Warning loading script: "
                    ++ String.intercalate ", " compiled_warnings⟩]

/-- The state `restricted_globals` starts the program in: empty `output`,
empty print buffer, the handler list after warning logging, and `data`
bound by `bindData`. -/
def execInitSt (source : SourceProgram) (data : Option Nat)
    (heap0 : List PyDict) (logs0 : List LogRec) : RunSt :=
  { output := []
    printed := []
    logs := execLogs source logs0
    heap := (bindData heap0 data).1
    dataAddr := (bindData heap0 data).2 }

/-- What `execute` leaves behind: the returned `output` dict or the raised
exception, plus the final state of the mutable objects it shared (the
`printed` list, the handler's record list, the dict heap). -/
structure ExecOutcome where
  result : Except PyErr PyDict
  printed : List String
  logs : List LogRec
  heap : List PyDict
deriving Repr

/-- `execute(hass, source, data, printed)`: compile, abort with a
`ScriptError` on compile errors, otherwise log warnings, build the
environment and run the program, converting a `ScriptError` raised during
the run into a `ServiceValidationError` and any other exception into a
`HomeAssistantError`. -/
def execute (source : SourceProgram) (data : Option Nat)
    (heap0 : List PyDict) (logs0 : List LogRec) : ExecOutcome :=
  let compiled := compile_restricted_exec source
  if compiled.errors ≠ [] then
    { result := .error (.scriptError
        ["Compile error: %s", String.intercalate ", " compiled.errors])
      printed := []
      logs := logs0
      heap := heap0 }
  else
    match runInstrs (execInitSt source data heap0 logs0) compiled.code with
    | (s, none) =>
      { result := .ok s.output, printed := s.printed, logs := s.logs, heap := s.heap }
    | (s, some err) =>
      let converted := match err with
        | .scriptError args =>
            PyErr.serviceValidationError
              ("Error executing script: " ++ PyErr.text (.scriptError args))
        | e =>
            PyErr.homeAssistantError
              ("Error executing script (" ++ e.kindName ++ "): " ++ e.text)
      { result := .error converted, printed := s.printed, logs := s.logs, heap := s.heap }

/-- The error descriptor `python_code_execute` builds in its `except
HomeAssistantError` clause. -/
def errorDescriptor (e : PyErr) : PyDict :=
  let d : PyDict := [("error", .pystr e.kindName)]
  if e.text ≠ "" then d ++ [("error_text", .pystr e.text)] else d

/-- What one tool call returns and what it leaves in the process-wide
state: `MyHandler.logs` is a class attribute, so the record list survives
the call and is shared with every later handler instance; the dict heap
carries the caller's `data` object. -/
structure ToolCall where
  result : PyDict
  sharedLogs : List LogRec
  heap : List PyDict
deriving Repr

/-- The tool entry point `python_code_execute`.  `sharedLogs` is the content
of the class attribute `MyHandler.logs` when the call starts. -/
def python_code_execute (sharedLogs : List LogRec) (heap : List PyDict)
    (source : SourceProgram) (data : Option Nat) : ToolCall :=
  let o := execute source data heap sharedLogs
  let output : PyDict :=
    match o.result with
    | .ok d => d
    | .error e => errorDescriptor e
  let result0 : PyDict := [("output", .pydict output)]
  let result1 :=
    if o.printed.isEmpty then result0
    else
      let r := result0 ++ [("printed", .pystr (String.join o.printed))]
      if output.isEmpty then r.filter (fun p => p.1 ≠ "output") else r
  let logs := o.logs.map
    (fun rec => Val.pydict [("level", .pyint rec.level), ("msg", .pystr rec.msg)])
  let result2 := if o.logs.isEmpty then result1 else result1 ++ [("logs", .pylist logs)]
  { result := result2, sharedLogs := o.logs, heap := o.heap }

/-! ## Auxiliary definitions used by the theorems -/

/-- Following the spec's words only (for comparison with the source's
`ALLOWED_IMPORT`): the import allow-list exactly as the spec enumerates it. -/
def spec_ALLOWED_IMPORT : List String :=
  ["math", "random", "itertools", "functools", "collections", "json", "csv",
   "re", "string", "enum", "types"]

/-- The message of the `ScriptError` raised when reading a non-allowlisted
attribute of the host handle. -/
def hassDenyMsg (name : String) : String :=
  if strStartsWith name "async_" then "Not allowed to access async methods"
  else "Not allowed to access " ++ (Owner.hass).className ++ "." ++ name

/-- The `output` mapping a straight-line sequence of output assignments
builds up. -/
def literalOutput : List Instr → PyDict → PyDict
  | [], d => d
  | .setOutput k v :: rest, d => literalOutput rest (dictSet d k v)
  | _ :: rest, d => literalOutput rest d

/-- Programs that only write values into `output`. -/
def isSetOutputOnly (prog : List Instr) : Bool :=
  prog.all (fun i => match i with | .setOutput _ _ => true | _ => false)

/-- A source program that fails static validation (a syntax error). -/
def c2source : SourceProgram := ⟨["invalid syntax (<string>, line 1)"], [], []⟩

/-- First call of the C7 scenario: the program logs one record. -/
def c7source1 : SourceProgram := ⟨[], [], [Instr.logMsg 20 "first"]⟩

/-- Second call of the C7 scenario: the program logs nothing. -/
def c7source2 : SourceProgram := ⟨[], [], [Instr.setOutput "x" (Val.pyint 1)]⟩

/-! ## Helper lemmas -/

theorem runInstrs_append (xs ys : List Instr) (s : RunSt) :
    runInstrs s (xs ++ ys) =
      match runInstrs s xs with
      | (s1, none) => runInstrs s1 ys
      | (s1, some e) => (s1, some e) := by
  induction xs generalizing s with
  | nil => simp [runInstrs]
  | cons i rest ih =>
    simp only [List.cons_append, runInstrs]
    cases stepInstr s i with
    | error e => rfl
    | ok s2 => simpa using ih s2

theorem runInstrs_ok_mem {prog : List Instr} {s s' : RunSt}
    (h : runInstrs s prog = (s', none)) {i : Instr} (hi : i ∈ prog) :
    ∃ t u, stepInstr t i = .ok u := by
  induction prog generalizing s with
  | nil => cases hi
  | cons j rest ih =>
    rw [runInstrs] at h
    cases hstep : stepInstr s j with
    | error e => rw [hstep] at h; simp at h
    | ok s2 =>
      rw [hstep] at h
      rcases List.mem_cons.mp hi with rfl | hmem
      · exact ⟨s, s2, hstep⟩
      · exact ih h hmem

theorem protected_getattr_hass_ok {name : String} {u : Unit}
    (h : protected_getattr .hass name = .ok u) :
    name ∈ ALLOWED_HASS ∧ strStartsWith name "async_" = false := by
  by_cases hb : strStartsWith name "async_"
  · rw [protected_getattr, if_pos hb] at h
    simp at h
  · by_cases hm : name ∈ ALLOWED_HASS
    · refine ⟨hm, ?_⟩
      simpa using hb
    · rw [protected_getattr, if_neg hb, if_pos (Or.inl ⟨rfl, hm⟩)] at h
      simp at h

theorem protected_getattr_hass_denied {name : String} (hm : name ∉ ALLOWED_HASS) :
    protected_getattr .hass name = .error (.scriptError [hassDenyMsg name]) := by
  by_cases hb : strStartsWith name "async_"
  · rw [protected_getattr, if_pos hb, hassDenyMsg, if_pos hb]
  · rw [protected_getattr, if_neg hb, if_pos (Or.inl ⟨rfl, hm⟩), hassDenyMsg, if_neg hb]

theorem errorDescriptor_isEmpty (e : PyErr) : (errorDescriptor e).isEmpty = false := by
  rw [errorDescriptor]
  split <;> simp

theorem dlookup_errorDescriptor_error (e : PyErr) :
    dlookup (errorDescriptor e) "error" = some (.pystr e.kindName) := by
  rw [errorDescriptor]
  split <;> rfl

/-- On any failing `execute`, the tool nests the error descriptor under the
`output` key and has no top-level `error` key. -/
theorem tool_error_output (sharedLogs : List LogRec) (heap : List PyDict)
    (source : SourceProgram) (data : Option Nat) (e : PyErr)
    (h : (execute source data heap sharedLogs).result = .error e) :
    dlookup (python_code_execute sharedLogs heap source data).result "output" =
      some (.pydict (errorDescriptor e)) ∧
    dlookup (python_code_execute sharedLogs heap source data).result "error" = none := by
  rw [python_code_execute]
  simp only [h]
  by_cases hp : (execute source data heap sharedLogs).printed.isEmpty <;>
    by_cases hl : (execute source data heap sharedLogs).logs.isEmpty <;>
      simp [hp, hl, errorDescriptor_isEmpty, dlookup]

/-! ## Claim theorems -/

/-- C8: for every object and every attribute name beginning with the async
marker prefix, `protected_getattr` raises the `ScriptError` denying async
access; the rule holds for every owner, including objects matching no entry
of the capability tables, because it is checked before any owner-specific
table. -/
theorem claim8_async_prefix_always_denied (obj : Owner) (name : String)
    (h : strStartsWith name "async_" = true) :
    protected_getattr obj name =
      .error (.scriptError ["Not allowed to access async methods"]) := by
  rw [protected_getattr, if_pos h]

theorem claim8_witness :
    protected_getattr (Owner.other "Foo") "async_fire" =
      .error (.scriptError ["Not allowed to access async methods"]) :=
  claim8_async_prefix_always_denied (Owner.other "Foo") "async_fire" rfl

/-- C3 fails as stated: the code's allow-list also contains `operator`
(absent from the spec's enumeration), and `dt_util` is a fourth
special-cased module; both import requests succeed instead of raising an
import-not-found error. -/
theorem claim3_counterexample :
    "operator" ∉ spec_ALLOWED_IMPORT ∧
    "operator" ∉ ["time", "datetime", "logging"] ∧
    protected_import "operator" = .ok (.stdModule "operator") ∧
    "dt_util" ∉ spec_ALLOWED_IMPORT ∧
    "dt_util" ∉ ["time", "datetime", "logging"] ∧
    protected_import "dt_util" = .ok .dtUtilModule :=
  ⟨by decide, by decide, rfl, by decide, by decide, rfl⟩

/-- C3 (amended): the resolver permits exactly the modules of
`ALLOWED_IMPORT` (which also contains `operator`) and their submodules,
plus four special-cased synthetic modules (`datetime`, the `time` wrapper,
the `dt_util` date-utility module, and the `logging` facade); every other
name raises an `ImportError`, never a host-level exception. -/
theorem claim3_amended_import_resolver (name : String) :
    (headBeforeDot name ∈ ALLOWED_IMPORT →
      protected_import name = .ok (.stdModule name)) ∧
    (headBeforeDot name ∉ ALLOWED_IMPORT →
      name ∉ ["datetime", "time", "dt_util", "logging"] →
      protected_import name =
        .error (.exc "ImportError" ("Module " ++ name ++ " not found"))) ∧
    protected_import "datetime" = .ok .datetimeModule ∧
    protected_import "time" = .ok .timeWrapper ∧
    protected_import "dt_util" = .ok .dtUtilModule ∧
    protected_import "logging" = .ok .protectedLogger := by
  refine ⟨?_, ?_, rfl, rfl, rfl, rfl⟩
  · intro h
    rw [protected_import, if_pos h]
  · intro h hn
    simp only [List.mem_cons, List.not_mem_nil, or_false, not_or] at hn
    obtain ⟨h1, h2, h3, h4⟩ := hn
    rw [protected_import, if_neg h, if_neg h1, if_neg h2, if_neg h3, if_neg h4]

theorem claim3_witness :
    protected_import "socket" =
      .error (.exc "ImportError" ("Module " ++ "socket" ++ " not found")) :=
  (claim3_amended_import_resolver "socket").2.1 (by decide) (by decide)

/-- C4 fails as stated: a tuple target has a sequence runtime type, and the
table's operation would produce a result, yet `guarded_inplacevar` raises
the guard's `ScriptError` because the source checks `isinstance(target,
(list, Number, str))`, which excludes tuples. -/
theorem claim4_counterexample :
    spec_target_type_ok (Val.pytuple [Val.pyint 1]) = true ∧
    opTableGet IOPERATOR_TO_OPERATOR "+=" = some operator_add ∧
    operator_add (Val.pytuple [Val.pyint 1]) (Val.pytuple [Val.pyint 2]) =
      .ok (Val.pytuple [Val.pyint 1, Val.pyint 2]) ∧
    guarded_inplacevar "+=" (Val.pytuple [Val.pyint 1]) (Val.pytuple [Val.pyint 2]) =
      .error (.scriptError ["The " ++ squote ++ "+=" ++ squote
        ++ " operation is not allowed on a " ++ (Val.pytuple [Val.pyint 1]).classRepr]) :=
  ⟨rfl, rfl, rfl, rfl⟩

/-- C4 (amended): `guarded_inplacevar` raises a `ScriptError` whenever the
target's runtime type is not a list, numeric, or text type; otherwise, for
each of the thirteen symbols of the fixed table it returns the result of the
corresponding operation applied to target and operand, and for any symbol
outside the table it raises a `ScriptError`. -/
theorem claim4_amended_inplacevar (op : String) (t x : Val) :
    IOPERATOR_TO_OPERATOR.map Prod.fst =
      ["%=", "&=", "**=", "*=", "+=", "-=", "//=", "/=", "<<=", ">>=", "@=", "^=", "|="] ∧
    (isinstance_list_Number_str t = false →
      guarded_inplacevar op t x = .error (.scriptError
        ["The " ++ squote ++ op ++ squote ++ " operation is not allowed on a "
          ++ t.classRepr])) ∧
    (isinstance_list_Number_str t = true →
      (opTableGet IOPERATOR_TO_OPERATOR op = none →
        guarded_inplacevar op t x = .error (.scriptError
          ["The " ++ squote ++ op ++ squote ++ " operation is not allowed"])) ∧
      (∀ f, opTableGet IOPERATOR_TO_OPERATOR op = some f →
        guarded_inplacevar op t x = f t x)) := by
  refine ⟨rfl, ?_, ?_⟩
  · intro h
    simp [guarded_inplacevar, h]
  · intro h
    refine ⟨?_, ?_⟩
    · intro hn
      simp [guarded_inplacevar, h, hn]
    · intro f hf
      simp [guarded_inplacevar, h, hf]

theorem claim4_amended_witness :
    guarded_inplacevar "+=" (Val.pyint 2) (Val.pyint 3) = Except.ok (Val.pyint 5) := by
  rw [((claim4_amended_inplacevar "+=" (Val.pyint 2) (Val.pyint 3)).2.2 rfl).2
    operator_add rfl]
  rfl

/-- C5: when compiling produces a non-empty error list, `execute` raises a
`ScriptError` whose arguments carry the joined error strings, and the
compiled body is never executed: the outcome is independent of the body and
produces no output entries, printed text, log records or heap effects. -/
theorem claim5_compile_errors_abort (source : SourceProgram) (data : Option Nat)
    (heap0 : List PyDict) (logs0 : List LogRec)
    (h : source.compileErrors ≠ []) :
    execute source data heap0 logs0 =
      { result := .error (.scriptError
          ["Compile error: %s", String.intercalate ", " source.compileErrors])
        printed := [], logs := logs0, heap := heap0 } ∧
    String.intercalate ", " source.compileErrors ∈
      ["Compile error: %s", String.intercalate ", " source.compileErrors] ∧
    (∀ body2 : List Instr,
      execute { source with body := body2 } data heap0 logs0 =
        execute source data heap0 logs0) := by
  refine ⟨?_, by simp, ?_⟩
  · rw [execute]
    simp [compile_restricted_exec, h]
  · intro body2
    rw [execute, execute]
    simp [compile_restricted_exec, h]

theorem claim5_witness :
    execute ⟨["boom"], [], [Instr.printText "x"]⟩ none [] [] =
      { result := .error (.scriptError
          ["Compile error: %s", String.intercalate ", " ["boom"]])
        printed := [], logs := [], heap := [] } :=
  (claim5_compile_errors_abort ⟨["boom"], [], [Instr.printText "x"]⟩ none [] []
    (by simp)).1

/-- C1 is right about the intended boundary but the code violates it:
`extra_builtins` binds the raw Python `getattr` (and `hasattr`) into the
sandbox builtins, and a call `getattr(hass, name)` is not rewritten through
the `_getattr_` hook, so it reads any non-allowlisted host attribute
unguarded.  Here `config` is outside the allow-list and the hook would deny
it with a `ScriptError`, yet the program reading it through the builtin
runs to completion and its output mapping is returned populated, with no
error. -/
theorem claim1_bug_raw_getattr_bypasses_guard :
    "getattr" ∈ extra_builtins_names ∧
    "config" ∉ ALLOWED_HASS ∧
    protected_getattr .hass "config" =
      .error (.scriptError ["Not allowed to access HomeAssistant.config"]) ∧
    builtin_getattr .hass "config" = .ok () ∧
    (python_code_execute [] []
        ⟨[], [], [Instr.callGetattr .hass "config",
                  Instr.setOutput "ok" (Val.pystr "Config")]⟩ none).result =
      [("output", Val.pydict [("ok", Val.pystr "Config")])] :=
  ⟨by decide, by decide, rfl, rfl, rfl⟩

/-- C2 fails as stated: on a failing call the error descriptor is not
returned at top level; it is nested under the `output` key (here for a
source with a syntax error), so an `output` key IS present. -/
theorem claim2_counterexample :
    dlookup (python_code_execute [] [] c2source none).result "error" = none ∧
    dlookup (python_code_execute [] [] c2source none).result "output" =
      some (.pydict [("error", .pystr "ScriptError"),
        ("error_text", .pystr ("(" ++ squote ++ "Compile error: %s" ++ squote ++ ", "
          ++ squote ++ "invalid syntax (<string>, line 1)" ++ squote ++ ")"))]) :=
  ⟨rfl, rfl⟩

/-- C2 (amended): whenever a call fails, the tool returns the error
descriptor `{error, error_text?}` nested under the `output` key — with
`error` the exception kind name and `error_text` present exactly when the
message is non-empty — and there is no top-level `error` key. -/
theorem claim2_amended_error_shape (sharedLogs : List LogRec) (heap : List PyDict)
    (source : SourceProgram) (data : Option Nat) (e : PyErr)
    (h : (execute source data heap sharedLogs).result = .error e) :
    dlookup (python_code_execute sharedLogs heap source data).result "output" =
      some (.pydict (errorDescriptor e)) ∧
    dlookup (python_code_execute sharedLogs heap source data).result "error" = none ∧
    dlookup (errorDescriptor e) "error" = some (.pystr e.kindName) ∧
    (e.text ≠ "" → dlookup (errorDescriptor e) "error_text" = some (.pystr e.text)) ∧
    (e.text = "" → dlookup (errorDescriptor e) "error_text" = none) := by
  refine ⟨(tool_error_output _ _ _ _ _ h).1, (tool_error_output _ _ _ _ _ h).2,
    dlookup_errorDescriptor_error e, ?_, ?_⟩
  · intro ht
    simp [errorDescriptor, ht, dlookup]
  · intro ht
    simp [errorDescriptor, ht, dlookup]

theorem claim2_amended_witness :
    dlookup (python_code_execute [] [] ⟨["x"], [], []⟩ none).result "output" =
      some (.pydict (errorDescriptor (.scriptError
        ["Compile error: %s", String.intercalate ", " ["x"]]))) :=
  (claim2_amended_error_shape [] [] ⟨["x"], [], []⟩ none _ rfl).1

theorem runInstrs_setOutput_only {prog : List Instr}
    (h : isSetOutputOnly prog = true) (s : RunSt) :
    runInstrs s prog = ({ s with output := literalOutput prog s.output }, none) := by
  induction prog generalizing s with
  | nil => simp [runInstrs, literalOutput]
  | cons i rest ih =>
    rw [isSetOutputOnly, List.all_cons] at h
    cases i with
    | setOutput k v =>
      simp only [Bool.true_and] at h
      rw [runInstrs, stepInstr]
      show runInstrs { s with output := dictSet s.output k v } rest = _
      rw [ih h]
      simp [literalOutput]
    | setData k v => simp at h
    | getAttr obj name => simp at h
    | callGetattr obj name => simp at h
    | importMod name => simp at h
    | augAssign op t x => simp at h
    | printText t => simp at h
    | logMsg l m => simp at h
    | raiseExc k m => simp at h

/-- C6: a call on a program that only writes literal values into `output`,
with no data supplied and fresh process state, returns exactly
`{"output": m}` with `m` the mapping of the assigned keys to the assigned
values and nothing else; moreover the `output` mapping starts empty on
every call. -/
theorem claim6_literal_output (body : List Instr) (heap0 : List PyDict)
    (h : isSetOutputOnly body = true) :
    python_code_execute [] heap0 ⟨[], [], body⟩ none =
      { result := [("output", .pydict (literalOutput body []))]
        sharedLogs := []
        heap := heap0 ++ [[]] } ∧
    (∀ (src : SourceProgram) (data : Option Nat) (hp : List PyDict)
        (lg : List LogRec), (execInitSt src data hp lg).output = []) := by
  refine ⟨?_, fun src data hp lg => rfl⟩
  have hrun := runInstrs_setOutput_only h (execInitSt ⟨[], [], body⟩ none heap0 [])
  have hexec : execute ⟨[], [], body⟩ none heap0 [] =
      { result := .ok (literalOutput body [])
        printed := []
        logs := []
        heap := heap0 ++ [[]] } := by
    rw [execute]
    simp only [compile_restricted_exec, hrun]
    simp [execInitSt, execLogs, compile_restricted_exec, bindData]
  rw [python_code_execute]
  simp [hexec]

theorem claim6_witness :
    python_code_execute [] [] ⟨[], [], [Instr.setOutput "test" (Val.pystr "passed")]⟩ none =
      { result := [("output", .pydict (literalOutput
          [Instr.setOutput "test" (Val.pystr "passed")] []))]
        sharedLogs := []
        heap := [] ++ [[]] } :=
  (claim6_literal_output [Instr.setOutput "test" (Val.pystr "passed")] [] rfl).1

/-- C7 is right about the intent but the code violates it: `MyHandler.logs`
is a class attribute shared by every handler instance, so a record captured
during one invocation reappears in the result of a later invocation.  Here
call 1 logs one record and call 2 logs nothing, yet call 2's result carries
call 1's record under `logs`. -/
theorem claim7_bug_logs_leak_across_calls :
    (python_code_execute [] [] c7source1 none).sharedLogs = [⟨20, "first"⟩] ∧
    dlookup (python_code_execute
        (python_code_execute [] [] c7source1 none).sharedLogs
        (python_code_execute [] [] c7source1 none).heap
        c7source2 none).result "logs" =
      some (.pylist [.pydict [("level", .pyint 20), ("msg", .pystr "first")]]) :=
  ⟨rfl, rfl⟩

/-- C9: each print appends its rendered text to the in-memory buffer rather
than a real stream, and on a successful call the result carries `printed`
(the concatenation of the buffered fragments) exactly when the buffer is
non-empty, and omits the `output` key exactly when some text was printed
and the program set no explicit output entries. -/
theorem claim9_print_capture :
    (∀ (s : RunSt) (txt : String),
      stepInstr s (.printText txt) = .ok { s with printed := s.printed ++ [txt] }) ∧
    (∀ (source : SourceProgram) (data : Option Nat) (heap0 : List PyDict)
        (logs0 : List LogRec) (d : PyDict),
      (execute source data heap0 logs0).result = .ok d →
      ((execute source data heap0 logs0).printed ≠ [] →
        dlookup (python_code_execute logs0 heap0 source data).result "printed" =
          some (.pystr (String.join (execute source data heap0 logs0).printed))) ∧
      ((execute source data heap0 logs0).printed = [] →
        dlookup (python_code_execute logs0 heap0 source data).result "printed" = none) ∧
      (dlookup (python_code_execute logs0 heap0 source data).result "output" = none ↔
        ((execute source data heap0 logs0).printed ≠ [] ∧ d = []))) := by
  refine ⟨fun s txt => rfl, ?_⟩
  intro source data heap0 logs0 d h
  rw [python_code_execute]
  simp only [h]
  by_cases hp : (execute source data heap0 logs0).printed = [] <;>
    by_cases hd : d = [] <;>
      by_cases hl : (execute source data heap0 logs0).logs = [] <;>
        simp [hp, hd, hl, dlookup]

theorem claim9_witness :
    dlookup (python_code_execute [] [] ⟨[], [], [Instr.printText "hi"]⟩ none).result
        "printed" =
      some (.pystr (String.join (execute ⟨[], [], [Instr.printText "hi"]⟩
        none [] []).printed)) ∧
    dlookup (python_code_execute [] [] ⟨[], [], [Instr.printText "hi"]⟩ none).result
        "output" = none := by
  have h := claim9_print_capture.2 ⟨[], [], [Instr.printText "hi"]⟩ none [] [] [] rfl
  exact ⟨h.1 (by decide), h.2.2.mpr ⟨by decide, rfl⟩⟩

/-- When compilation succeeds, `execute`'s side-effect fields (the print
buffer, the handler's record list, the dict heap) are those of the state the
run ends in, whether or not it raised. -/
theorem execute_effects_of_compiled (source : SourceProgram) (data : Option Nat)
    (heap0 : List PyDict) (logs0 : List LogRec) (h : source.compileErrors = []) :
    (execute source data heap0 logs0).heap =
      (runInstrs (execInitSt source data heap0 logs0) source.body).1.heap ∧
    (execute source data heap0 logs0).printed =
      (runInstrs (execInitSt source data heap0 logs0) source.body).1.printed ∧
    (execute source data heap0 logs0).logs =
      (runInstrs (execInitSt source data heap0 logs0) source.body).1.logs := by
  rw [execute, if_neg (by simp [compile_restricted_exec, h])]
  simp only [compile_restricted_exec]
  rcases hr : runInstrs (execInitSt source data heap0 logs0) source.body with ⟨s, e⟩
  cases e <;> simp [hr]

/-- C10: `execute` binds a non-empty caller-supplied `data` mapping as the
same object (the same heap address, not a copy), so mutations the program
makes are visible in the caller's mapping after the call; only when `data`
is omitted/None or empty is a fresh empty mapping substituted, leaving the
caller's cells untouched. -/
theorem claim10_data_same_object :
    (∀ (heap : List PyDict) (a : Nat), (heapGet heap a).isEmpty = false →
      bindData heap (some a) = (heap, a)) ∧
    (∀ heap : List PyDict, bindData heap none = (heap ++ [[]], heap.length)) ∧
    (∀ (heap : List PyDict) (a : Nat), (heapGet heap a).isEmpty = true →
      bindData heap (some a) = (heap ++ [[]], heap.length)) ∧
    (∀ (heap0 : List PyDict) (a : Nat) (k : String) (v : Val) (logs0 : List LogRec),
      (heapGet heap0 a).isEmpty = false →
      heapGet (execute ⟨[], [], [Instr.setData k v]⟩ (some a) heap0 logs0).heap a =
        dictSet (heapGet heap0 a) k v) ∧
    (∀ (heap0 : List PyDict) (k : String) (v : Val) (logs0 : List LogRec) (b : Nat),
      b < heap0.length →
      heapGet (execute ⟨[], [], [Instr.setData k v]⟩ none heap0 logs0).heap b =
        heapGet heap0 b) := by
  have hbind : ∀ (heap : List PyDict) (a : Nat), (heapGet heap a).isEmpty = false →
      bindData heap (some a) = (heap, a) := by
    intro heap a h
    rw [bindData, if_neg]
    simp [h]
  refine ⟨hbind, fun heap => rfl, ?_, ?_, ?_⟩
  · intro heap a h
    rw [bindData, if_pos h]
  · intro heap0 a k v logs0 h
    have ha : a < heap0.length := by
      by_contra hlen
      rw [heapGet, List.get?_eq_none.mpr (le_of_not_lt hlen)] at h
      simp at h
    rw [(execute_effects_of_compiled ⟨[], [], [Instr.setData k v]⟩
      (some a) heap0 logs0 rfl).1]
    simp only [runInstrs, stepInstr]
    have hinit : execInitSt ⟨[], [], [Instr.setData k v]⟩ (some a) heap0 logs0 =
        { output := [], printed := []
          logs := execLogs ⟨[], [], [Instr.setData k v]⟩ logs0
          heap := heap0, dataAddr := a } := by
      rw [execInitSt, hbind heap0 a h]
    rw [hinit]
    simp only [heapGet, heapSet]
    rw [List.get?_set_eq_of_lt _ ha]
    rfl
  · intro heap0 k v logs0 b hb
    rw [(execute_effects_of_compiled ⟨[], [], [Instr.setData k v]⟩
      none heap0 logs0 rfl).1]
    simp only [runInstrs, stepInstr]
    have hinit : execInitSt ⟨[], [], [Instr.setData k v]⟩ none heap0 logs0 =
        { output := [], printed := []
          logs := execLogs ⟨[], [], [Instr.setData k v]⟩ logs0
          heap := heap0 ++ [[]], dataAddr := heap0.length } := rfl
    rw [hinit]
    simp only [heapGet, heapSet]
    rw [List.get?_set_ne _ _ (Nat.ne_of_gt hb), List.get?_append hb]

theorem claim10_witness :
    heapGet (execute ⟨[], [], [Instr.setData "k" (Val.pyint 7)]⟩ (some 0)
        [[("a", Val.pyint 1)]] []).heap 0 =
      dictSet (heapGet [[("a", Val.pyint 1)]] 0) "k" (Val.pyint 7) :=
  claim10_data_same_object.2.2.2.1 [[("a", Val.pyint 1)]] 0 "k" (Val.pyint 7) [] rfl
